import Mathlib

/-!
Verification of the `my-typingmind-mcp-connector` repository.

The development shallowly embeds the two components with decision logic:

* the Credential Resolver of `prepareEnvironmentAndLaunch` — the spec's §4.1
  decision procedure, whose branches live in the launcher variants of the
  repository: the OAuth branch (`src/start-mcp.js` lines 50-56 and
  `src/unnamed/part_001` lines 31-42), the service-account branch
  (`src/unnamed/part_000` lines 30-38) and the Google-Analytics base64 step
  (`src/start-mcp.js` lines 59-66);
* the Subprocess Launcher exit-code contract (`src/start-mcp.js` lines 102-109);
* the Search Console binding `src/gscService.js` (auth and parameter guards of
  its ten exported operations).

Environments are association lists of string variables, the file system is a
map from paths to (content, mode) pairs, and Node's `Buffer.from(s, 'base64')`
/ `buf.toString('utf-8')` pipeline is modelled by an explicit forgiving base64
decoder composed with a replacement-character UTF-8 decoder, both total, as
neither Node primitive ever throws.
-/

namespace McpConnector

/-- An environment snapshot: an association list from variable names to string
values, observed the way `process.env` is — by lookup, assignment and
`delete`. The first binding for a name wins. -/
def Env : Type := List (String × String)

/-- Reading `process.env[key]`. -/
def lookupVar : Env → String → Option String
  | [], _ => none
  | (k, v) :: rest, key => if k = key then some v else lookupVar rest key

/-- Removing a variable, as `delete process.env[key]` does. -/
def envDel : Env → String → Env
  | [], _ => []
  | (k, v) :: rest, key => if k = key then envDel rest key else (k, v) :: envDel rest key

/-- Assigning a variable, as `process.env[key] = value` does. -/
def envSet (e : Env) (key value : String) : Env :=
  (key, value) :: envDel e key

/-- A file-system fragment: a finite map from paths to (content, mode). -/
def FS : Type := List (String × String × Nat)

/-- Looking a file up by path. -/
def fsRead : FS → String → Option (String × Nat)
  | [], _ => none
  | (p, c, m) :: rest, path => if p = path then some (c, m) else fsRead rest path

/-- Removing a path from the file map. -/
def fsRemove : FS → String → FS
  | [], _ => []
  | (p, c, m) :: rest, path =>
    if p = path then fsRemove rest path else (p, c, m) :: fsRemove rest path

/-- The effect of `fs.writeFileSync(path, content, { mode })`: create the file
or overwrite a prior one at the same path. -/
def fsWrite (fs : FS) (path content : String) (mode : Nat) : FS :=
  (path, content, mode) :: fsRemove fs path

/-- JavaScript truthiness of an optional environment value: `undefined` and the
empty string are falsy, every other string is truthy. -/
def jsTruthy : Option String → Bool
  | none => false
  | some s => decide (s ≠ "")

/-- Membership in the character class removed by `String.prototype.trim`:
ECMAScript WhiteSpace together with LineTerminator. -/
def isJsSpace (ch : Char) : Bool :=
  let n := ch.toNat
  n == 9 || n == 10 || n == 11 || n == 12 || n == 13 || n == 32 ||
  n == 0xA0 || n == 0xFEFF || n == 0x1680 ||
  (0x2000 ≤ n && n ≤ 0x200A) || n == 0x2028 || n == 0x2029 ||
  n == 0x202F || n == 0x205F || n == 0x3000

/-- JavaScript `s.trim()`: strip leading and trailing whitespace. -/
def jsTrim (s : String) : String :=
  String.mk (((s.data.dropWhile isJsSpace).reverse.dropWhile isJsSpace).reverse)

/-- The `path.join(os.tmpdir(), 'gsc-sa-key.json')` expression of
`src/unnamed/part_000` line 32, for a temporary directory without a trailing
separator. -/
def gscSaKeyPath (tmpdir : String) : String := tmpdir ++ "/gsc-sa-key.json"

/-! ### Base64 (Node `Buffer.from(string, 'base64')`) -/

/-- The base64 alphabet in index order. -/
def b64Alphabet : List Char :=
  "ABCDEFGHIJKLMNOPQRSTUVWXYZabcdefghijklmnopqrstuvwxyz0123456789+/".data

/-- The alphabet character of a 6-bit value. -/
def toB64Char (n : Nat) : Char := b64Alphabet.getD n 'A'

/-- Index of a character in a list, if present. -/
def charIndex : List Char → Char → Option Nat
  | [], _ => none
  | a :: rest, ch => if a = ch then some 0 else (charIndex rest ch).map (· + 1)

/-- The 6-bit value of an alphabet character; `none` for every character
outside the alphabet (including `=` and whitespace). -/
def fromB64Char (ch : Char) : Option Nat := charIndex b64Alphabet ch

/-- Standard base64 encoding of a byte list (with `=` padding); used to state
the round-trip claim about `GOOGLE_PRIVATE_KEY_BASE64`. -/
def b64EncodeBytes : List Nat → List Char
  | [] => []
  | [a] => [toB64Char (a / 4), toB64Char (a % 4 * 16), '=', '=']
  | [a, b] => [toB64Char (a / 4), toB64Char (a % 4 * 16 + b / 16), toB64Char (b % 16 * 4), '=']
  | a :: b :: c :: rest =>
    toB64Char (a / 4) :: toB64Char (a % 4 * 16 + b / 16) ::
      toB64Char (b % 16 * 4 + c / 64) :: toB64Char (c % 64) :: b64EncodeBytes rest

/-- Reassembling bytes from a list of 6-bit values, including the partial final
group produced when padding or invalid characters were dropped: four values
give three bytes, three give two, two give one, a lone value gives none. -/
def b64DecodeSextets : List Nat → List Nat
  | x1 :: x2 :: x3 :: x4 :: rest =>
    (x1 * 4 + x2 / 16) :: (x2 % 16 * 16 + x3 / 4) :: (x3 % 4 * 64 + x4) ::
      b64DecodeSextets rest
  | [x1, x2, x3] => [x1 * 4 + x2 / 16, x2 % 16 * 16 + x3 / 4]
  | [x1, x2] => [x1 * 4 + x2 / 16]
  | _ => []

/-- Node's forgiving base64 decode, per the Buffer documentation: characters
outside the alphabet (whitespace, `=`, arbitrary garbage) are ignored and the
rest is decoded best-effort. `Buffer.from(s, 'base64')` never throws. -/
def nodeB64Decode (s : String) : List Nat :=
  b64DecodeSextets (s.data.filterMap fromB64Char)

/-! ### UTF-8 (Node `buf.toString('utf-8')`) -/

/-- The replacement character U+FFFD emitted for malformed byte sequences. -/
def replChar : Char := Char.ofNat 0xFFFD

/-- UTF-8 encoding of one scalar value. -/
def utf8EncodeChar (c : Char) : List Nat :=
  let n := c.toNat
  if n < 0x80 then [n]
  else if n < 0x800 then [0xC0 + n / 64, 0x80 + n % 64]
  else if n < 0x10000 then [0xE0 + n / 4096, 0x80 + n / 64 % 64, 0x80 + n % 64]
  else [0xF0 + n / 262144, 0x80 + n / 4096 % 64, 0x80 + n / 64 % 64, 0x80 + n % 64]

/-- UTF-8 encoding of a string's characters. -/
def utf8Encode (s : String) : List Nat :=
  (s.data.map utf8EncodeChar).flatten

/-- Replacement-character UTF-8 decoding with explicit fuel (the fuel makes the
recursion structural; `utf8DecodeReplace` instantiates it with the list
length, which every step stays below since each step consumes at least one
byte). Well-formed sequences decode exactly; a malformed sequence yields
U+FFFD and decoding resumes, so the function is total and never fails, like
`buf.toString('utf-8')`. The precise number of replacement characters per
malformed run is not load-bearing below: no theorem evaluates malformed
non-empty input. -/
def utf8DecodeAux : Nat → List Nat → List Char
  | 0, _ => []
  | _ + 1, [] => []
  | fuel + 1, b :: rest =>
    if b < 0x80 then Char.ofNat b :: utf8DecodeAux fuel rest
    else if b < 0xC2 then replChar :: utf8DecodeAux fuel rest
    else if b < 0xE0 then
      match rest with
      | b1 :: rest1 =>
        if 0x80 ≤ b1 ∧ b1 < 0xC0 then
          Char.ofNat ((b - 0xC0) * 64 + (b1 - 0x80)) :: utf8DecodeAux fuel rest1
        else replChar :: utf8DecodeAux fuel (b1 :: rest1)
      | [] => [replChar]
    else if b < 0xF0 then
      match rest with
      | b1 :: rest1 =>
        if 0x80 ≤ b1 ∧ b1 < 0xC0 then
          match rest1 with
          | b2 :: rest2 =>
            if 0x80 ≤ b2 ∧ b2 < 0xC0 then
              let cp := (b - 0xE0) * 4096 + (b1 - 0x80) * 64 + (b2 - 0x80)
              if 0x800 ≤ cp ∧ (cp < 0xD800 ∨ 0xDFFF < cp) then
                Char.ofNat cp :: utf8DecodeAux fuel rest2
              else replChar :: utf8DecodeAux fuel rest2
            else replChar :: utf8DecodeAux fuel (b2 :: rest2)
          | [] => [replChar]
        else replChar :: utf8DecodeAux fuel (b1 :: rest1)
      | [] => [replChar]
    else if b < 0xF5 then
      match rest with
      | b1 :: rest1 =>
        if 0x80 ≤ b1 ∧ b1 < 0xC0 then
          match rest1 with
          | b2 :: rest2 =>
            if 0x80 ≤ b2 ∧ b2 < 0xC0 then
              match rest2 with
              | b3 :: rest3 =>
                if 0x80 ≤ b3 ∧ b3 < 0xC0 then
                  let cp := (b - 0xF0) * 262144 + (b1 - 0x80) * 4096 +
                    (b2 - 0x80) * 64 + (b3 - 0x80)
                  if 0x10000 ≤ cp ∧ cp < 0x110000 then
                    Char.ofNat cp :: utf8DecodeAux fuel rest3
                  else replChar :: utf8DecodeAux fuel rest3
                else replChar :: utf8DecodeAux fuel (b3 :: rest3)
              | [] => [replChar]
            else replChar :: utf8DecodeAux fuel (b2 :: rest2)
          | [] => [replChar]
        else replChar :: utf8DecodeAux fuel (b1 :: rest1)
      | [] => [replChar]
    else replChar :: utf8DecodeAux fuel rest

/-- Replacement-character UTF-8 decoding of a byte list to a string. -/
def utf8DecodeReplace (bs : List Nat) : String :=
  String.mk (utf8DecodeAux bs.length bs)

/-- The composite `Buffer.from(v, 'base64').toString('utf-8')` of
`src/start-mcp.js` line 61: total, never throws. -/
def bufferBase64ToUtf8 (v : String) : String :=
  utf8DecodeReplace (nodeB64Decode v)

/-- Base64 text of the UTF-8 encoding of a string; the inverse construction the
spec's round-trip property quantifies over. -/
def b64EncodeString (x : String) : String :=
  String.mk (b64EncodeBytes (utf8Encode x))

/-! ### The Credential Resolver -/

/-- Step 1 of the Credential Resolver (spec §4.1): the Search-Console strategy
selection of `prepareEnvironmentAndLaunch`, as a function of the
temporary-directory path, the input environment and the input file system.

Branch order follows the spec's precedence, each branch translated from the
variant that implements it:

* if `GSC_OAUTH_REFRESH_TOKEN` is truthy, `GOOGLE_APPLICATION_CREDENTIALS` is
  deleted and no file is written (`src/start-mcp.js` lines 50-56,
  `src/unnamed/part_001` lines 31-38);
* else, if `GSC_CREDENTIALS_JSON_STRING` is truthy and non-blank after
  `trim()`, the blob is written verbatim to `<tmp>/gsc-sa-key.json` with mode
  `0o600` and `GOOGLE_APPLICATION_CREDENTIALS` is set to that path
  (`src/unnamed/part_000` lines 30-38);
* else only a warning is emitted and nothing changes
  (`src/unnamed/part_000` line 38, `src/unnamed/part_001` lines 39-41);
* finally, if `GOOGLE_PRIVATE_KEY_BASE64` is truthy, `GOOGLE_PRIVATE_KEY` is
  assigned `Buffer.from(v, 'base64').toString('utf-8')`
  (`src/start-mcp.js` lines 59-66). -/
def gscCredentialStep (tmpdir : String) (env : Env) (fs : FS) : Env × FS :=
  if jsTruthy (lookupVar env "GSC_OAUTH_REFRESH_TOKEN") then
    (envDel env "GOOGLE_APPLICATION_CREDENTIALS", fs)
  else
    match lookupVar env "GSC_CREDENTIALS_JSON_STRING" with
    | some s =>
      if s ≠ "" ∧ jsTrim s ≠ "" then
        (envSet env "GOOGLE_APPLICATION_CREDENTIALS" (gscSaKeyPath tmpdir),
          fsWrite fs (gscSaKeyPath tmpdir) s 0o600)
      else (env, fs)
    | none => (env, fs)

/-- Step 2 of the resolver, the Google-Analytics private-key materialization
(`src/start-mcp.js` lines 59-66): when `GOOGLE_PRIVATE_KEY_BASE64` is truthy,
assign `GOOGLE_PRIVATE_KEY` its decoded value. -/
def gaPrivateKeyStep (env : Env) : Env :=
  match lookupVar env "GOOGLE_PRIVATE_KEY_BASE64" with
  | some v =>
    if v ≠ "" then envSet env "GOOGLE_PRIVATE_KEY" (bufferBase64ToUtf8 v)
    else env
  | none => env

/-- The full Credential Resolver: the GSC strategy step followed by the GA
private-key step, returning the resolved environment and file system. -/
def prepareEnvironment (tmpdir : String) (env : Env) (fs : FS) : Env × FS :=
  let step1 := gscCredentialStep tmpdir env fs
  (gaPrivateKeyStep step1.1, step1.2)

/-! ### The Subprocess Launcher -/

/-- Termination of the one spawned child: either its `close` event fires with
an exit code or its `error` event fires because the child could not start. -/
inductive SpawnOutcome : Type where
  | exited (code : Int)
  | startFailed (errMessage : String)

/-- The wrapper's exit code: `process.exit(code)` in the `close` handler
(`src/start-mcp.js` lines 102-105), `process.exit(1)` in the `error` handler
(`src/start-mcp.js` lines 106-109). -/
def wrapperExitCode : SpawnOutcome → Int
  | .exited code => code
  | .startFailed _ => 1

/-- The console lines emitted by the two handlers before exiting. -/
def wrapperLog : SpawnOutcome → List String
  | .exited code =>
    ["[MCP-WRAPPER] @typingmind/mcp process exited with code " ++ toString code ++
      ". Wrapper script also exiting."]
  | .startFailed errMessage =>
    ["[MCP-WRAPPER] Failed to start @typingmind/mcp process: " ++ errMessage]

/-! ### The Search Console binding (`src/gscService.js`) -/

/-- The API request each operation would issue when its guards pass, carrying
the request parameters the source passes to the `googleapis` client. An
operation result of `Except.error` means the operation threw before any
request was attempted. -/
inductive GscRequest : Type where
  | sitesList
  | sitesGet (siteUrl : String)
  | sitesAdd (siteUrl : String)
  | sitesDelete (siteUrl : String)
  | analyticsQuery (siteUrl startDate endDate : String) (dimensions : List String)
  | urlInspect (siteUrl inspectionUrl languageCode : String)
  | sitemapsList (siteUrl : String)
  | sitemapsGet (siteUrl feedpath : String)
  | sitemapsSubmit (siteUrl feedpath : String)
  | sitemapsDelete (siteUrl feedpath : String)
  deriving DecidableEq

namespace GscService

/-- Module-load auth status (`src/gscService.js` lines 20-39): true exactly
when the four `GSC_OAUTH_*` variables are all truthy in the environment at
load time. -/
def isAuthInitialized (env : Env) : Bool :=
  jsTruthy (lookupVar env "GSC_OAUTH_CLIENT_ID") &&
  jsTruthy (lookupVar env "GSC_OAUTH_CLIENT_SECRET") &&
  jsTruthy (lookupVar env "GSC_OAUTH_REFRESH_TOKEN") &&
  jsTruthy (lookupVar env "GSC_OAUTH_REDIRECT_URI")

/-- The message of the guard every operation throws first when the OAuth
client was never initialized. -/
def notInitMsg : String :=
  "GSC Service not initialized due to missing OAuth credentials."

/-- `listSites()`. -/
def listSites (init : Bool) : Except String GscRequest :=
  if !init then .error notInitMsg
  else .ok .sitesList

/-- `getSite(siteUrl)`; the parameter is an optional string so that a missing
(`undefined`) argument is representable next to an empty one. -/
def getSite (init : Bool) (siteUrl : Option String) : Except String GscRequest :=
  if !init then .error notInitMsg
  else if !jsTruthy siteUrl then .error "siteUrl parameter is required for getSite."
  else .ok (.sitesGet (siteUrl.getD ""))

/-- `addSite(siteUrl)`. -/
def addSite (init : Bool) (siteUrl : Option String) : Except String GscRequest :=
  if !init then .error notInitMsg
  else if !jsTruthy siteUrl then .error "siteUrl parameter is required for addSite."
  else .ok (.sitesAdd (siteUrl.getD ""))

/-- `deleteSite(siteUrl)`. -/
def deleteSite (init : Bool) (siteUrl : Option String) : Except String GscRequest :=
  if !init then .error notInitMsg
  else if !jsTruthy siteUrl then .error "siteUrl parameter is required for deleteSite."
  else .ok (.sitesDelete (siteUrl.getD ""))

/-- The `!dimensions || dimensions.length === 0` test of `queryAnalytics`. -/
def dimsFalsyOrEmpty : Option (List String) → Bool
  | none => true
  | some dims => dims.isEmpty

/-- `queryAnalytics(siteUrl, startDate, endDate, dimensions, options)`
(guards only; `src/gscService.js` lines 154-158). -/
def queryAnalytics (init : Bool) (siteUrl startDate endDate : Option String)
    (dimensions : Option (List String)) : Except String GscRequest :=
  if !init then .error notInitMsg
  else if !jsTruthy siteUrl || !jsTruthy startDate || !jsTruthy endDate ||
      dimsFalsyOrEmpty dimensions then
    .error "siteUrl, startDate, endDate, and dimensions are required for queryAnalytics."
  else
    .ok (.analyticsQuery (siteUrl.getD "") (startDate.getD "") (endDate.getD "")
      (dimensions.getD []))

/-- `inspectUrl(siteUrl, inspectionUrl, languageCode)`. -/
def inspectUrl (init : Bool) (siteUrl inspectionUrl : Option String)
    (languageCode : String) : Except String GscRequest :=
  if !init then .error notInitMsg
  else if !jsTruthy siteUrl || !jsTruthy inspectionUrl then
    .error "siteUrl and inspectionUrl are required for inspectUrl."
  else .ok (.urlInspect (siteUrl.getD "") (inspectionUrl.getD "") languageCode)

/-- `listSitemaps(siteUrl)`. -/
def listSitemaps (init : Bool) (siteUrl : Option String) : Except String GscRequest :=
  if !init then .error notInitMsg
  else if !jsTruthy siteUrl then .error "siteUrl parameter is required for listSitemaps."
  else .ok (.sitemapsList (siteUrl.getD ""))

/-- `getSitemap(siteUrl, feedpath)`. -/
def getSitemap (init : Bool) (siteUrl feedpath : Option String) : Except String GscRequest :=
  if !init then .error notInitMsg
  else if !jsTruthy siteUrl || !jsTruthy feedpath then
    .error "siteUrl and feedpath are required for getSitemap."
  else .ok (.sitemapsGet (siteUrl.getD "") (feedpath.getD ""))

/-- `submitSitemap(siteUrl, feedpath)`. -/
def submitSitemap (init : Bool) (siteUrl feedpath : Option String) : Except String GscRequest :=
  if !init then .error notInitMsg
  else if !jsTruthy siteUrl || !jsTruthy feedpath then
    .error "siteUrl and feedpath are required for submitSitemap."
  else .ok (.sitemapsSubmit (siteUrl.getD "") (feedpath.getD ""))

/-- `deleteSitemap(siteUrl, feedpath)`. -/
def deleteSitemap (init : Bool) (siteUrl feedpath : Option String) : Except String GscRequest :=
  if !init then .error notInitMsg
  else if !jsTruthy siteUrl || !jsTruthy feedpath then
    .error "siteUrl and feedpath are required for deleteSitemap."
  else .ok (.sitemapsDelete (siteUrl.getD "") (feedpath.getD ""))

end GscService

/-! ### Environment and file-system lemmas -/

theorem lookupVar_envDel_self (e : Env) (key : String) :
    lookupVar (envDel e key) key = none := by
  induction e with
  | nil => rfl
  | cons p rest ih =>
    obtain ⟨k, v⟩ := p
    by_cases h : k = key
    · simpa [envDel, h] using ih
    · simpa [envDel, lookupVar, h] using ih

theorem lookupVar_envDel_ne (e : Env) (key other : String) (h : other ≠ key) :
    lookupVar (envDel e key) other = lookupVar e other := by
  induction e with
  | nil => rfl
  | cons p rest ih =>
    obtain ⟨k, v⟩ := p
    by_cases hk : k = key
    · subst hk
      have hko : ¬ k = other := fun he => h he.symm
      simp [envDel, lookupVar, hko, ih]
    · by_cases ho : k = other
      · subst ho
        simp [envDel, lookupVar, hk]
      · simp [envDel, lookupVar, hk, ho, ih]

theorem lookupVar_envSet_self (e : Env) (key value : String) :
    lookupVar (envSet e key value) key = some value := by
  simp [envSet, lookupVar]

theorem lookupVar_envSet_ne (e : Env) (key value other : String) (h : other ≠ key) :
    lookupVar (envSet e key value) other = lookupVar e other := by
  have : key ≠ other := fun hk => h hk.symm
  simp [envSet, lookupVar, this, lookupVar_envDel_ne e key other h]

theorem fsRead_fsWrite_self (fs : FS) (path content : String) (mode : Nat) :
    fsRead (fsWrite fs path content mode) path = some (content, mode) := by
  simp [fsWrite, fsRead]

theorem jsTrim_of_empty : jsTrim "" = "" := rfl

/-! ### Resolver step lemmas -/

theorem gaPrivateKeyStep_lookup_ne (e : Env) (key : String)
    (h : key ≠ "GOOGLE_PRIVATE_KEY") :
    lookupVar (gaPrivateKeyStep e) key = lookupVar e key := by
  unfold gaPrivateKeyStep
  cases lookupVar e "GOOGLE_PRIVATE_KEY_BASE64" with
  | none => rfl
  | some v =>
    by_cases hv : v = ""
    · simp [hv]
    · simp [hv, lookupVar_envSet_ne _ _ _ _ h]

theorem gscCredentialStep_lookup_ne (tmpdir : String) (env : Env) (fs : FS)
    (key : String) (h : key ≠ "GOOGLE_APPLICATION_CREDENTIALS") :
    lookupVar (gscCredentialStep tmpdir env fs).1 key = lookupVar env key := by
  unfold gscCredentialStep
  by_cases ho : jsTruthy (lookupVar env "GSC_OAUTH_REFRESH_TOKEN")
  · simp [ho, lookupVar_envDel_ne _ _ _ h]
  · simp only [ho, if_false, Bool.false_eq_true]
    cases lookupVar env "GSC_CREDENTIALS_JSON_STRING" with
    | none => rfl
    | some s =>
      by_cases hs : s ≠ "" ∧ jsTrim s ≠ ""
      · simp [hs, lookupVar_envSet_ne _ _ _ _ h]
      · simp [hs]

theorem gscCredentialStep_oauth (tmpdir : String) (env : Env) (fs : FS)
    (h : jsTruthy (lookupVar env "GSC_OAUTH_REFRESH_TOKEN") = true) :
    gscCredentialStep tmpdir env fs =
      (envDel env "GOOGLE_APPLICATION_CREDENTIALS", fs) := by
  simp [gscCredentialStep, h]

theorem gscCredentialStep_sa (tmpdir : String) (env : Env) (fs : FS) (s : String)
    (ho : jsTruthy (lookupVar env "GSC_OAUTH_REFRESH_TOKEN") = false)
    (hj : lookupVar env "GSC_CREDENTIALS_JSON_STRING" = some s)
    (hs : jsTrim s ≠ "") :
    gscCredentialStep tmpdir env fs =
      (envSet env "GOOGLE_APPLICATION_CREDENTIALS" (gscSaKeyPath tmpdir),
        fsWrite fs (gscSaKeyPath tmpdir) s 0o600) := by
  have hne : s ≠ "" := by
    intro he
    exact hs (by rw [he]; rfl)
  simp [gscCredentialStep, ho, hj, hne, hs]

theorem gscCredentialStep_none (tmpdir : String) (env : Env) (fs : FS)
    (ho : jsTruthy (lookupVar env "GSC_OAUTH_REFRESH_TOKEN") = false)
    (hj : lookupVar env "GSC_CREDENTIALS_JSON_STRING" = none ∨
      lookupVar env "GSC_CREDENTIALS_JSON_STRING" = some "") :
    gscCredentialStep tmpdir env fs = (env, fs) := by
  rcases hj with hj | hj <;> simp [gscCredentialStep, ho, hj]

end McpConnector

namespace McpConnector

theorem fromB64Char_toB64Char (n : Nat) (h : n < 64) :
    fromB64Char (toB64Char n) = some n := by
  interval_cases n <;> rfl

theorem fromB64Char_pad : fromB64Char '=' = none := rfl

theorem b64_decode_encode (bs : List Nat) (h : ∀ b ∈ bs, b < 256) :
    b64DecodeSextets ((b64EncodeBytes bs).filterMap fromB64Char) = bs := by
  induction bs using b64EncodeBytes.induct with
  | case1 => rfl
  | case2 a =>
    have ha : a < 256 := h a (by simp)
    have e1 : fromB64Char (toB64Char (a / 4)) = some (a / 4) :=
      fromB64Char_toB64Char _ (by omega)
    have e2 : fromB64Char (toB64Char (a % 4 * 16)) = some (a % 4 * 16) :=
      fromB64Char_toB64Char _ (by omega)
    simp only [b64EncodeBytes, List.filterMap_cons, e1, e2, fromB64Char_pad,
      List.filterMap_nil, b64DecodeSextets]
    have : a / 4 * 4 + a % 4 * 16 / 16 = a := by omega
    rw [this]
  | case3 a b =>
    have ha : a < 256 := h a (by simp)
    have hb : b < 256 := h b (by simp)
    have e1 : fromB64Char (toB64Char (a / 4)) = some (a / 4) :=
      fromB64Char_toB64Char _ (by omega)
    have e2 : fromB64Char (toB64Char (a % 4 * 16 + b / 16)) = some (a % 4 * 16 + b / 16) :=
      fromB64Char_toB64Char _ (by omega)
    have e3 : fromB64Char (toB64Char (b % 16 * 4)) = some (b % 16 * 4) :=
      fromB64Char_toB64Char _ (by omega)
    simp only [b64EncodeBytes, List.filterMap_cons, e1, e2, e3, fromB64Char_pad,
      List.filterMap_nil, b64DecodeSextets]
    have h1 : a / 4 * 4 + (a % 4 * 16 + b / 16) / 16 = a := by omega
    have h2 : (a % 4 * 16 + b / 16) % 16 * 16 + b % 16 * 4 / 4 = b := by omega
    rw [h1, h2]
  | case4 a b c rest ih =>
    have ha : a < 256 := h a (by simp)
    have hb : b < 256 := h b (by simp)
    have hc : c < 256 := h c (by simp)
    have e1 : fromB64Char (toB64Char (a / 4)) = some (a / 4) :=
      fromB64Char_toB64Char _ (by omega)
    have e2 : fromB64Char (toB64Char (a % 4 * 16 + b / 16)) = some (a % 4 * 16 + b / 16) :=
      fromB64Char_toB64Char _ (by omega)
    have e3 : fromB64Char (toB64Char (b % 16 * 4 + c / 64)) = some (b % 16 * 4 + c / 64) :=
      fromB64Char_toB64Char _ (by omega)
    have e4 : fromB64Char (toB64Char (c % 64)) = some (c % 64) :=
      fromB64Char_toB64Char _ (by omega)
    have ih' := ih (fun x hx => h x (by simp [hx]))
    simp only [b64EncodeBytes, List.filterMap_cons, e1, e2, e3, e4, b64DecodeSextets, ih']
    have h1 : a / 4 * 4 + (a % 4 * 16 + b / 16) / 16 = a := by omega
    have h2 : (a % 4 * 16 + b / 16) % 16 * 16 + (b % 16 * 4 + c / 64) / 4 = b := by omega
    have h3 : (b % 16 * 4 + c / 64) % 4 * 64 + c % 64 = c := by omega
    rw [h1, h2, h3]

end McpConnector

namespace McpConnector

theorem char_valid_ranges (c : Char) :
    c.toNat < 0xD800 ∨ (0xDFFF < c.toNat ∧ c.toNat < 0x110000) := by
  have h := c.valid
  simpa [UInt32.isValidChar, Nat.isValidChar, Char.toNat] using h

theorem char_toNat_lt (c : Char) : c.toNat < 0x110000 := by
  rcases char_valid_ranges c with h | h
  · omega
  · exact h.2

theorem utf8EncodeChar_lt (c : Char) : ∀ b ∈ utf8EncodeChar c, b < 256 := by
  have hn := char_toNat_lt c
  intro b hb
  simp only [utf8EncodeChar] at hb
  split_ifs at hb <;> simp only [List.mem_cons, List.not_mem_nil, or_false] at hb <;>
    rcases hb with rfl | rfl | rfl | rfl <;> omega

theorem utf8EncodeChar_length_pos (c : Char) : utf8EncodeChar c ≠ [] := by
  simp only [utf8EncodeChar]
  split_ifs <;> simp

theorem utf8Encode_lt (s : String) : ∀ b ∈ utf8Encode s, b < 256 := by
  intro b hb
  simp only [utf8Encode, List.mem_flatten, List.mem_map] at hb
  obtain ⟨l, ⟨c, _, rfl⟩, hbl⟩ := hb
  exact utf8EncodeChar_lt c b hbl

theorem utf8DecodeAux_nil (f : Nat) : utf8DecodeAux f [] = [] := by
  cases f <;> rfl

theorem utf8DecodeAux_encodeChar (c : Char) (f : Nat) (rest : List Nat) :
    utf8DecodeAux (f + 1) (utf8EncodeChar c ++ rest) = c :: utf8DecodeAux f rest := by
  have hv := char_valid_ranges c
  have hofn : Char.ofNat c.toNat = c := Char.ofNat_toNat c
  set n := c.toNat with hn
  by_cases h1 : n < 0x80
  · have e : utf8EncodeChar c = [n] := by
      simp only [utf8EncodeChar, ← hn, if_pos h1]
    rw [e]
    simp only [List.cons_append, List.nil_append, utf8DecodeAux]
    rw [if_pos h1, hofn]
    rfl
  · by_cases h2 : n < 0x800
    · have e : utf8EncodeChar c = [0xC0 + n / 64, 0x80 + n % 64] := by
        simp only [utf8EncodeChar, ← hn, if_neg h1, if_pos h2]
      rw [e]
      simp only [List.cons_append, List.nil_append, utf8DecodeAux]
      rw [if_neg (by omega), if_neg (by omega), if_pos (by omega)]
      show (if 0x80 ≤ 0x80 + n % 64 ∧ 0x80 + n % 64 < 0xC0 then
          Char.ofNat ((0xC0 + n / 64 - 0xC0) * 64 + (0x80 + n % 64 - 0x80)) ::
            utf8DecodeAux f rest
        else replChar :: utf8DecodeAux f ((0x80 + n % 64) :: rest)) = c :: utf8DecodeAux f rest
      rw [if_pos (by omega), show (0xC0 + n / 64 - 0xC0) * 64 + (0x80 + n % 64 - 0x80) = n
        from by omega, hofn]
    · by_cases h3 : n < 0x10000
      · have e : utf8EncodeChar c = [0xE0 + n / 4096, 0x80 + n / 64 % 64, 0x80 + n % 64] := by
          simp only [utf8EncodeChar, ← hn, if_neg h1, if_neg h2, if_pos h3]
        rw [e]
        simp only [List.cons_append, List.nil_append, utf8DecodeAux]
        rw [if_neg (by omega), if_neg (by omega), if_neg (by omega), if_pos (by omega)]
        show (if 0x80 ≤ 0x80 + n / 64 % 64 ∧ 0x80 + n / 64 % 64 < 0xC0 then
            (if 0x80 ≤ 0x80 + n % 64 ∧ 0x80 + n % 64 < 0xC0 then
              (if 0x800 ≤ (0xE0 + n / 4096 - 0xE0) * 4096 + (0x80 + n / 64 % 64 - 0x80) * 64 +
                    (0x80 + n % 64 - 0x80) ∧
                  ((0xE0 + n / 4096 - 0xE0) * 4096 + (0x80 + n / 64 % 64 - 0x80) * 64 +
                      (0x80 + n % 64 - 0x80) < 0xD800 ∨
                    0xDFFF < (0xE0 + n / 4096 - 0xE0) * 4096 + (0x80 + n / 64 % 64 - 0x80) * 64 +
                      (0x80 + n % 64 - 0x80)) then
                Char.ofNat ((0xE0 + n / 4096 - 0xE0) * 4096 + (0x80 + n / 64 % 64 - 0x80) * 64 +
                  (0x80 + n % 64 - 0x80)) :: utf8DecodeAux f rest
              else replChar :: utf8DecodeAux f rest)
            else replChar :: utf8DecodeAux f ((0x80 + n % 64) :: rest))
          else replChar :: utf8DecodeAux f ((0x80 + n / 64 % 64) :: (0x80 + n % 64) :: rest)) =
            c :: utf8DecodeAux f rest
        rw [show (0xE0 + n / 4096 - 0xE0) * 4096 + (0x80 + n / 64 % 64 - 0x80) * 64 +
            (0x80 + n % 64 - 0x80) = n from by omega]
        rw [if_pos (by omega), if_pos (by omega), if_pos (by omega)]
        rw [hofn]
      · have h4 : n < 0x110000 := char_toNat_lt c
        have e : utf8EncodeChar c =
            [0xF0 + n / 262144, 0x80 + n / 4096 % 64, 0x80 + n / 64 % 64, 0x80 + n % 64] := by
          simp only [utf8EncodeChar, ← hn, if_neg h1, if_neg h2, if_neg h3]
        rw [e]
        simp only [List.cons_append, List.nil_append, utf8DecodeAux]
        rw [if_neg (by omega), if_neg (by omega), if_neg (by omega), if_neg (by omega),
          if_pos (by omega)]
        show (if 0x80 ≤ 0x80 + n / 4096 % 64 ∧ 0x80 + n / 4096 % 64 < 0xC0 then
            (if 0x80 ≤ 0x80 + n / 64 % 64 ∧ 0x80 + n / 64 % 64 < 0xC0 then
              (if 0x80 ≤ 0x80 + n % 64 ∧ 0x80 + n % 64 < 0xC0 then
                (if 0x10000 ≤ (0xF0 + n / 262144 - 0xF0) * 262144 +
                      (0x80 + n / 4096 % 64 - 0x80) * 4096 + (0x80 + n / 64 % 64 - 0x80) * 64 +
                      (0x80 + n % 64 - 0x80) ∧
                    (0xF0 + n / 262144 - 0xF0) * 262144 + (0x80 + n / 4096 % 64 - 0x80) * 4096 +
                      (0x80 + n / 64 % 64 - 0x80) * 64 + (0x80 + n % 64 - 0x80) < 0x110000 then
                  Char.ofNat ((0xF0 + n / 262144 - 0xF0) * 262144 +
                    (0x80 + n / 4096 % 64 - 0x80) * 4096 + (0x80 + n / 64 % 64 - 0x80) * 64 +
                    (0x80 + n % 64 - 0x80)) :: utf8DecodeAux f rest
                else replChar :: utf8DecodeAux f rest)
              else replChar :: utf8DecodeAux f ((0x80 + n % 64) :: rest))
            else replChar :: utf8DecodeAux f ((0x80 + n / 64 % 64) :: (0x80 + n % 64) :: rest))
          else replChar :: utf8DecodeAux f
            ((0x80 + n / 4096 % 64) :: (0x80 + n / 64 % 64) :: (0x80 + n % 64) :: rest)) =
            c :: utf8DecodeAux f rest
        rw [show (0xF0 + n / 262144 - 0xF0) * 262144 + (0x80 + n / 4096 % 64 - 0x80) * 4096 +
            (0x80 + n / 64 % 64 - 0x80) * 64 + (0x80 + n % 64 - 0x80) = n from by omega]
        rw [if_pos (by omega), if_pos (by omega), if_pos (by omega), if_pos (by omega)]
        rw [hofn]

end McpConnector

namespace McpConnector

theorem utf8DecodeAux_encodeList (l : List Char) :
    ∀ f, l.length ≤ f → utf8DecodeAux f ((l.map utf8EncodeChar).flatten) = l := by
  induction l with
  | nil =>
    intro f _
    simpa using utf8DecodeAux_nil f
  | cons c cs ih =>
    intro f hf
    match f with
    | 0 => simp at hf
    | f' + 1 =>
      simp only [List.map_cons, List.flatten_cons]
      rw [utf8DecodeAux_encodeChar, ih f' (by simp at hf; omega)]

theorem length_le_utf8Encode (l : List Char) :
    l.length ≤ ((l.map utf8EncodeChar).flatten).length := by
  induction l with
  | nil => simp
  | cons c cs ih =>
    simp only [List.map_cons, List.flatten_cons, List.length_cons, List.length_append]
    have : utf8EncodeChar c ≠ [] := utf8EncodeChar_length_pos c
    have : 1 ≤ (utf8EncodeChar c).length := by
      cases he : utf8EncodeChar c with
      | nil => exact absurd he (utf8EncodeChar_length_pos c)
      | cons x xs => simp
    omega

theorem utf8_roundtrip (x : String) : utf8DecodeReplace (utf8Encode x) = x := by
  have h : utf8Encode x = (x.data.map utf8EncodeChar).flatten := rfl
  rw [utf8DecodeReplace, h,
    utf8DecodeAux_encodeList x.data _ (by rw [← h]; exact length_le_utf8Encode x.data)]

theorem bufferBase64ToUtf8_encode (x : String) :
    bufferBase64ToUtf8 (b64EncodeString x) = x := by
  have hdata : (b64EncodeString x).data = b64EncodeBytes (utf8Encode x) := rfl
  rw [bufferBase64ToUtf8, nodeB64Decode, hdata,
    b64_decode_encode (utf8Encode x) (utf8Encode_lt x), utf8_roundtrip]

theorem string_data_ne_nil (x : String) (h : x ≠ "") : x.data ≠ [] := by
  intro hd
  apply h
  have : x = String.mk x.data := rfl
  rw [this, hd]

theorem b64EncodeBytes_ne_nil (l : List Nat) (h : l ≠ []) : b64EncodeBytes l ≠ [] := by
  match l with
  | [] => exact absurd rfl h
  | [a] => simp [b64EncodeBytes]
  | [a, b] => simp [b64EncodeBytes]
  | a :: b :: c :: rest => simp [b64EncodeBytes]

theorem b64EncodeString_ne_empty (x : String) (h : x ≠ "") : b64EncodeString x ≠ "" := by
  intro he
  have hd : (b64EncodeString x).data = [] := by rw [he]
  have henc : utf8Encode x ≠ [] := by
    have hx := string_data_ne_nil x h
    cases hc : x.data with
    | nil => exact absurd hc hx
    | cons c cs =>
      have : utf8Encode x = utf8EncodeChar c ++ (cs.map utf8EncodeChar).flatten := by
        rw [utf8Encode, hc, List.map_cons, List.flatten_cons]
      rw [this]
      exact List.append_ne_nil_of_left_ne_nil (utf8EncodeChar_length_pos c) _
  exact b64EncodeBytes_ne_nil (utf8Encode x) henc hd

end McpConnector

namespace McpConnector

theorem prepareEnvironment_def (tmpdir : String) (env : Env) (fs : FS) :
    prepareEnvironment tmpdir env fs =
      (gaPrivateKeyStep (gscCredentialStep tmpdir env fs).1,
        (gscCredentialStep tmpdir env fs).2) := rfl

/-- C1: After the Credential Resolver runs, at most one of the two GSC
authentication modes is configured: for no input environment are both the
OAuth strategy active (`GSC_OAUTH_REFRESH_TOKEN` present and non-empty) and
`GOOGLE_APPLICATION_CREDENTIALS` equal to the service-account file path. -/
theorem c1_auth_modes_exclusive (tmpdir : String) (env : Env) (fs : FS) :
    (jsTruthy (lookupVar env "GSC_OAUTH_REFRESH_TOKEN") &&
      (lookupVar (prepareEnvironment tmpdir env fs).1 "GOOGLE_APPLICATION_CREDENTIALS" ==
        some (gscSaKeyPath tmpdir))) = false := by
  cases hb : jsTruthy (lookupVar env "GSC_OAUTH_REFRESH_TOKEN") with
  | false => rfl
  | true =>
    have hstep := gscCredentialStep_oauth tmpdir env fs hb
    have h1 : (gscCredentialStep tmpdir env fs).1 =
        envDel env "GOOGLE_APPLICATION_CREDENTIALS" := by rw [hstep]
    have hlook : lookupVar (prepareEnvironment tmpdir env fs).1
        "GOOGLE_APPLICATION_CREDENTIALS" = none := by
      show lookupVar (gaPrivateKeyStep (gscCredentialStep tmpdir env fs).1)
        "GOOGLE_APPLICATION_CREDENTIALS" = none
      rw [gaPrivateKeyStep_lookup_ne _ _ (by decide), h1, lookupVar_envDel_self]
    rw [hlook]
    rfl

/-- C2: whenever `GSC_OAUTH_REFRESH_TOKEN` is present and non-empty, after the
Credential Resolver runs `GOOGLE_APPLICATION_CREDENTIALS` is absent from the
resulting environment — whatever it was before — and no credentials file is
written. -/
theorem c2_oauth_removes_credentials (tmpdir : String) (env : Env) (fs : FS) (v : String)
    (hv : lookupVar env "GSC_OAUTH_REFRESH_TOKEN" = some v) (hne : v ≠ "") :
    lookupVar (prepareEnvironment tmpdir env fs).1 "GOOGLE_APPLICATION_CREDENTIALS" = none ∧
    (prepareEnvironment tmpdir env fs).2 = fs := by
  have ht : jsTruthy (lookupVar env "GSC_OAUTH_REFRESH_TOKEN") = true := by
    rw [hv]
    simp [jsTruthy, hne]
  have hstep := gscCredentialStep_oauth tmpdir env fs ht
  have h1 : (gscCredentialStep tmpdir env fs).1 =
      envDel env "GOOGLE_APPLICATION_CREDENTIALS" := by rw [hstep]
  have h2 : (gscCredentialStep tmpdir env fs).2 = fs := by rw [hstep]
  constructor
  · show lookupVar (gaPrivateKeyStep (gscCredentialStep tmpdir env fs).1)
      "GOOGLE_APPLICATION_CREDENTIALS" = none
    rw [gaPrivateKeyStep_lookup_ne _ _ (by decide), h1, lookupVar_envDel_self]
  · exact h2

/-- C2 witness: a concrete environment with an OAuth refresh token and a stale
`GOOGLE_APPLICATION_CREDENTIALS` value. -/
theorem c2_oauth_removes_credentials_witness :
    lookupVar (prepareEnvironment "/tmp"
      [("GSC_OAUTH_REFRESH_TOKEN", "tok"), ("GOOGLE_APPLICATION_CREDENTIALS", "/stale.json")]
      [("/etc/keep", "data", 420)]).1 "GOOGLE_APPLICATION_CREDENTIALS" = none ∧
    (prepareEnvironment "/tmp"
      [("GSC_OAUTH_REFRESH_TOKEN", "tok"), ("GOOGLE_APPLICATION_CREDENTIALS", "/stale.json")]
      [("/etc/keep", "data", 420)]).2 = [("/etc/keep", "data", 420)] :=
  c2_oauth_removes_credentials "/tmp"
    [("GSC_OAUTH_REFRESH_TOKEN", "tok"), ("GOOGLE_APPLICATION_CREDENTIALS", "/stale.json")]
    [("/etc/keep", "data", 420)] "tok" rfl (by decide)

/-- C3 counterexample: with `GSC_CREDENTIALS_JSON_STRING` equal to a single
space — present and non-empty, but blank after `trim()` — the resolver sets
nothing and writes nothing, against the claim's universal reading. -/
theorem c3_sa_claim_cex :
    lookupVar (prepareEnvironment "/tmp" [("GSC_CREDENTIALS_JSON_STRING", " ")] []).1
        "GOOGLE_APPLICATION_CREDENTIALS" ≠ some (gscSaKeyPath "/tmp") ∧
    fsRead (prepareEnvironment "/tmp" [("GSC_CREDENTIALS_JSON_STRING", " ")] []).2
        (gscSaKeyPath "/tmp") = none := by
  decide

/-- C3 (amended): when `GSC_OAUTH_REFRESH_TOKEN` is absent or empty and
`GSC_CREDENTIALS_JSON_STRING` is non-blank after trimming, the resolver sets
`GOOGLE_APPLICATION_CREDENTIALS` to `<tmp>/gsc-sa-key.json` and the file at
that path holds the JSON string verbatim with mode `0o600`. -/
theorem c3_sa_writes_key_file (tmpdir : String) (env : Env) (fs : FS) (s : String)
    (ho : jsTruthy (lookupVar env "GSC_OAUTH_REFRESH_TOKEN") = false)
    (hj : lookupVar env "GSC_CREDENTIALS_JSON_STRING" = some s)
    (hs : jsTrim s ≠ "") :
    lookupVar (prepareEnvironment tmpdir env fs).1 "GOOGLE_APPLICATION_CREDENTIALS" =
      some (gscSaKeyPath tmpdir) ∧
    fsRead (prepareEnvironment tmpdir env fs).2 (gscSaKeyPath tmpdir) = some (s, 0o600) := by
  have hstep := gscCredentialStep_sa tmpdir env fs s ho hj hs
  have h1 : (gscCredentialStep tmpdir env fs).1 =
      envSet env "GOOGLE_APPLICATION_CREDENTIALS" (gscSaKeyPath tmpdir) := by rw [hstep]
  have h2 : (gscCredentialStep tmpdir env fs).2 =
      fsWrite fs (gscSaKeyPath tmpdir) s 0o600 := by rw [hstep]
  constructor
  · show lookupVar (gaPrivateKeyStep (gscCredentialStep tmpdir env fs).1)
      "GOOGLE_APPLICATION_CREDENTIALS" = some (gscSaKeyPath tmpdir)
    rw [gaPrivateKeyStep_lookup_ne _ _ (by decide), h1, lookupVar_envSet_self]
  · show fsRead (gscCredentialStep tmpdir env fs).2 (gscSaKeyPath tmpdir) = some (s, 0o600)
    rw [h2, fsRead_fsWrite_self]

/-- C3 witness: a concrete blank-free JSON blob is written and pointed to. -/
theorem c3_sa_writes_key_file_witness :
    lookupVar (prepareEnvironment "/t" [("GSC_CREDENTIALS_JSON_STRING", "sa-json-blob")] []).1
        "GOOGLE_APPLICATION_CREDENTIALS" = some (gscSaKeyPath "/t") ∧
    fsRead (prepareEnvironment "/t" [("GSC_CREDENTIALS_JSON_STRING", "sa-json-blob")] []).2
        (gscSaKeyPath "/t") = some ("sa-json-blob", 0o600) :=
  c3_sa_writes_key_file "/t" [("GSC_CREDENTIALS_JSON_STRING", "sa-json-blob")] []
    "sa-json-blob" rfl rfl (by decide)

end McpConnector

namespace McpConnector

/-- C4 counterexample: with both strategy variables absent but
`GOOGLE_APPLICATION_CREDENTIALS` preset by the platform and a base64 GA key
present, the resolver leaves the preset value in place (the claim says it is
absent) and rewrites `GOOGLE_PRIVATE_KEY` (the claim says other variables are
untouched). -/
theorem c4_none_claim_cex :
    lookupVar (prepareEnvironment "/tmp"
      [("GOOGLE_APPLICATION_CREDENTIALS", "/preset/key.json"),
        ("GOOGLE_PRIVATE_KEY", "old"), ("GOOGLE_PRIVATE_KEY_BASE64", "aGk=")] []).1
      "GOOGLE_APPLICATION_CREDENTIALS" ≠ none ∧
    lookupVar (prepareEnvironment "/tmp"
      [("GOOGLE_APPLICATION_CREDENTIALS", "/preset/key.json"),
        ("GOOGLE_PRIVATE_KEY", "old"), ("GOOGLE_PRIVATE_KEY_BASE64", "aGk=")] []).1
      "GOOGLE_PRIVATE_KEY" ≠ some "old" := by
  decide

/-- C4 (amended): when both strategy-triggering variables are absent or empty,
no credentials file is written, `GOOGLE_APPLICATION_CREDENTIALS` keeps its
prior value (in particular stays absent if it was absent), every variable
other than `GOOGLE_PRIVATE_KEY` is untouched, and `GOOGLE_PRIVATE_KEY` too is
untouched unless `GOOGLE_PRIVATE_KEY_BASE64` is present and non-empty. -/
theorem c4_none_strategy_frame (tmpdir : String) (env : Env) (fs : FS)
    (ho : jsTruthy (lookupVar env "GSC_OAUTH_REFRESH_TOKEN") = false)
    (hj : lookupVar env "GSC_CREDENTIALS_JSON_STRING" = none ∨
      lookupVar env "GSC_CREDENTIALS_JSON_STRING" = some "") :
    (prepareEnvironment tmpdir env fs).2 = fs ∧
    lookupVar (prepareEnvironment tmpdir env fs).1 "GOOGLE_APPLICATION_CREDENTIALS" =
      lookupVar env "GOOGLE_APPLICATION_CREDENTIALS" ∧
    (∀ key, key ≠ "GOOGLE_PRIVATE_KEY" →
      lookupVar (prepareEnvironment tmpdir env fs).1 key = lookupVar env key) ∧
    (jsTruthy (lookupVar env "GOOGLE_PRIVATE_KEY_BASE64") = false →
      lookupVar (prepareEnvironment tmpdir env fs).1 "GOOGLE_PRIVATE_KEY" =
        lookupVar env "GOOGLE_PRIVATE_KEY") := by
  have hstep := gscCredentialStep_none tmpdir env fs ho hj
  have h1 : (gscCredentialStep tmpdir env fs).1 = env := by rw [hstep]
  have h2 : (gscCredentialStep tmpdir env fs).2 = fs := by rw [hstep]
  refine ⟨h2, ?_, ?_, ?_⟩
  · show lookupVar (gaPrivateKeyStep (gscCredentialStep tmpdir env fs).1)
      "GOOGLE_APPLICATION_CREDENTIALS" = _
    rw [gaPrivateKeyStep_lookup_ne _ _ (by decide), h1]
  · intro key hk
    show lookupVar (gaPrivateKeyStep (gscCredentialStep tmpdir env fs).1) key = _
    rw [gaPrivateKeyStep_lookup_ne _ _ hk, h1]
  · intro hb
    show lookupVar (gaPrivateKeyStep (gscCredentialStep tmpdir env fs).1)
      "GOOGLE_PRIVATE_KEY" = _
    rw [h1]
    unfold gaPrivateKeyStep
    cases hbb : lookupVar env "GOOGLE_PRIVATE_KEY_BASE64" with
    | none => rfl
    | some v =>
      rw [hbb] at hb
      have hv : v = "" := by simpa [jsTruthy] using hb
      simp [hv]

/-- C4 witness: with both strategy variables absent, an unrelated variable, a
preset credentials path and an absent base64 key all survive unharmed. -/
theorem c4_none_strategy_frame_witness :
    (prepareEnvironment "/tmp"
      [("FOO", "bar"), ("GOOGLE_APPLICATION_CREDENTIALS", "/x")] [("/f", "c", 420)]).2 =
      [("/f", "c", 420)] ∧
    lookupVar (prepareEnvironment "/tmp"
      [("FOO", "bar"), ("GOOGLE_APPLICATION_CREDENTIALS", "/x")] [("/f", "c", 420)]).1
      "GOOGLE_APPLICATION_CREDENTIALS" = some "/x" ∧
    lookupVar (prepareEnvironment "/tmp"
      [("FOO", "bar"), ("GOOGLE_APPLICATION_CREDENTIALS", "/x")] [("/f", "c", 420)]).1
      "FOO" = some "bar" ∧
    lookupVar (prepareEnvironment "/tmp"
      [("FOO", "bar"), ("GOOGLE_APPLICATION_CREDENTIALS", "/x")] [("/f", "c", 420)]).1
      "GOOGLE_PRIVATE_KEY" = none := by
  have h := c4_none_strategy_frame "/tmp"
    [("FOO", "bar"), ("GOOGLE_APPLICATION_CREDENTIALS", "/x")] [("/f", "c", 420)]
    rfl (Or.inl rfl)
  exact ⟨h.1, h.2.1.trans rfl, (h.2.2.1 "FOO" (by decide)).trans rfl, (h.2.2.2 rfl).trans rfl⟩

/-- C5: on normal child termination with exit code `c`, the wrapper calls
`process.exit(c)`, so the parent exits with the same code — in particular 7
maps to 7. -/
theorem c5_exit_code_forwarded :
    (∀ code : Int, wrapperExitCode (SpawnOutcome.exited code) = code) ∧
    wrapperExitCode (SpawnOutcome.exited 7) = 7 :=
  ⟨fun _ => rfl, rfl⟩

/-- C6: when the child fails to start, the wrapper logs the error and the
parent exits with the fixed code 1, for every launch-failure message. -/
theorem c6_start_failure_exits_one :
    ∀ errMessage : String,
      wrapperExitCode (SpawnOutcome.startFailed errMessage) = 1 ∧
      wrapperLog (SpawnOutcome.startFailed errMessage) =
        ["[MCP-WRAPPER] Failed to start @typingmind/mcp process: " ++ errMessage] :=
  fun _ => ⟨rfl, rfl⟩

/-- C7 counterexample: the empty string is its own base64 encoding, and with
`GOOGLE_PRIVATE_KEY_BASE64` present but empty the code skips the decode (the
value is falsy), so `GOOGLE_PRIVATE_KEY` keeps its old value instead of
becoming the decoded (empty) text. -/
theorem c7_roundtrip_claim_cex :
    lookupVar [("GOOGLE_PRIVATE_KEY_BASE64", ""), ("GOOGLE_PRIVATE_KEY", "old")]
      "GOOGLE_PRIVATE_KEY_BASE64" = some (b64EncodeString "") ∧
    lookupVar (prepareEnvironment "/tmp"
      [("GOOGLE_PRIVATE_KEY_BASE64", ""), ("GOOGLE_PRIVATE_KEY", "old")] []).1
      "GOOGLE_PRIVATE_KEY" ≠ some "" := by
  decide

/-- C7 (amended): for every non-empty string `x`, if
`GOOGLE_PRIVATE_KEY_BASE64` equals the base64 encoding of the UTF-8 bytes of
`x`, then after the resolver runs `GOOGLE_PRIVATE_KEY` equals `x` exactly —
the decode round-trips, embedded newlines included, overwriting any prior
value. -/
theorem c7_base64_roundtrip (tmpdir : String) (env : Env) (fs : FS) (x : String)
    (hx : x ≠ "")
    (hb : lookupVar env "GOOGLE_PRIVATE_KEY_BASE64" = some (b64EncodeString x)) :
    lookupVar (prepareEnvironment tmpdir env fs).1 "GOOGLE_PRIVATE_KEY" = some x := by
  have hbs : lookupVar (gscCredentialStep tmpdir env fs).1 "GOOGLE_PRIVATE_KEY_BASE64" =
      some (b64EncodeString x) := by
    rw [gscCredentialStep_lookup_ne tmpdir env fs _ (by decide), hb]
  show lookupVar (gaPrivateKeyStep (gscCredentialStep tmpdir env fs).1)
    "GOOGLE_PRIVATE_KEY" = some x
  unfold gaPrivateKeyStep
  simp only [hbs]
  rw [if_pos (b64EncodeString_ne_empty x hx), lookupVar_envSet_self,
    bufferBase64ToUtf8_encode]

/-- C7 witness: the spec's own example, a two-line key. -/
theorem c7_base64_roundtrip_witness :
    lookupVar (prepareEnvironment "/tmp"
      [("GOOGLE_PRIVATE_KEY_BASE64", b64EncodeString "line1\nline2")] []).1
      "GOOGLE_PRIVATE_KEY" = some "line1\nline2" :=
  c7_base64_roundtrip "/tmp" [("GOOGLE_PRIVATE_KEY_BASE64", b64EncodeString "line1\nline2")]
    [] "line1\nline2" (by decide) rfl

/-- C8 counterexample: `Buffer.from('!!!', 'base64')` does not throw — it
ignores the invalid characters and yields an empty buffer — so the resolver
overwrites `GOOGLE_PRIVATE_KEY` with the empty string instead of leaving the
prior value in place. -/
theorem c8_invalid_base64_cex :
    lookupVar [("GOOGLE_PRIVATE_KEY_BASE64", "!!!"), ("GOOGLE_PRIVATE_KEY", "prior")]
      "GOOGLE_PRIVATE_KEY" = some "prior" ∧
    lookupVar (prepareEnvironment "/tmp"
      [("GOOGLE_PRIVATE_KEY_BASE64", "!!!"), ("GOOGLE_PRIVATE_KEY", "prior")] []).1
      "GOOGLE_PRIVATE_KEY" = some "" := by
  decide

/-- C8 (amended): the resolver is total (nothing in the model can throw), and
whenever `GOOGLE_PRIVATE_KEY_BASE64` is absent or empty, `GOOGLE_PRIVATE_KEY`
keeps its prior value (absent if never set); when the variable is present and
non-empty the decode never throws either, but it is forgiving, so the prior
value is overwritten with the best-effort decode rather than retained. -/
theorem c8_absent_or_empty_preserves_key (tmpdir : String) (env : Env) (fs : FS)
    (hb : lookupVar env "GOOGLE_PRIVATE_KEY_BASE64" = none ∨
      lookupVar env "GOOGLE_PRIVATE_KEY_BASE64" = some "") :
    lookupVar (prepareEnvironment tmpdir env fs).1 "GOOGLE_PRIVATE_KEY" =
      lookupVar env "GOOGLE_PRIVATE_KEY" := by
  have hpk : lookupVar (gscCredentialStep tmpdir env fs).1 "GOOGLE_PRIVATE_KEY" =
      lookupVar env "GOOGLE_PRIVATE_KEY" :=
    gscCredentialStep_lookup_ne tmpdir env fs _ (by decide)
  have hbs : lookupVar (gscCredentialStep tmpdir env fs).1 "GOOGLE_PRIVATE_KEY_BASE64" =
      lookupVar env "GOOGLE_PRIVATE_KEY_BASE64" :=
    gscCredentialStep_lookup_ne tmpdir env fs _ (by decide)
  show lookupVar (gaPrivateKeyStep (gscCredentialStep tmpdir env fs).1)
    "GOOGLE_PRIVATE_KEY" = _
  unfold gaPrivateKeyStep
  rcases hb with hb | hb
  · simp only [hbs, hb]
    exact hpk
  · simp only [hbs, hb]
    rw [if_neg (fun h => h rfl)]
    exact hpk

/-- C8 witness: with the base64 variable absent, a prior key value survives. -/
theorem c8_absent_or_empty_preserves_key_witness :
    lookupVar (prepareEnvironment "/tmp" [("GOOGLE_PRIVATE_KEY", "keep")] []).1
      "GOOGLE_PRIVATE_KEY" = some "keep" :=
  (c8_absent_or_empty_preserves_key "/tmp" [("GOOGLE_PRIVATE_KEY", "keep")] []
    (Or.inl rfl)).trans rfl

end McpConnector

namespace McpConnector

/-- C9: whenever any of the four `GSC_OAUTH_*` variables is missing at module
load, every one of the ten Search Console operations fails with the
descriptive initialization error instead of attempting the API call. -/
theorem c9_ops_fail_uninitialized (env : Env)
    (h : lookupVar env "GSC_OAUTH_CLIENT_ID" = none ∨
      lookupVar env "GSC_OAUTH_CLIENT_SECRET" = none ∨
      lookupVar env "GSC_OAUTH_REFRESH_TOKEN" = none ∨
      lookupVar env "GSC_OAUTH_REDIRECT_URI" = none) :
    GscService.listSites (GscService.isAuthInitialized env) =
      .error GscService.notInitMsg ∧
    (∀ siteUrl, GscService.getSite (GscService.isAuthInitialized env) siteUrl =
      .error GscService.notInitMsg) ∧
    (∀ siteUrl, GscService.addSite (GscService.isAuthInitialized env) siteUrl =
      .error GscService.notInitMsg) ∧
    (∀ siteUrl, GscService.deleteSite (GscService.isAuthInitialized env) siteUrl =
      .error GscService.notInitMsg) ∧
    (∀ siteUrl startDate endDate dimensions,
      GscService.queryAnalytics (GscService.isAuthInitialized env)
        siteUrl startDate endDate dimensions = .error GscService.notInitMsg) ∧
    (∀ siteUrl inspectionUrl languageCode,
      GscService.inspectUrl (GscService.isAuthInitialized env)
        siteUrl inspectionUrl languageCode = .error GscService.notInitMsg) ∧
    (∀ siteUrl, GscService.listSitemaps (GscService.isAuthInitialized env) siteUrl =
      .error GscService.notInitMsg) ∧
    (∀ siteUrl feedpath, GscService.getSitemap (GscService.isAuthInitialized env)
      siteUrl feedpath = .error GscService.notInitMsg) ∧
    (∀ siteUrl feedpath, GscService.submitSitemap (GscService.isAuthInitialized env)
      siteUrl feedpath = .error GscService.notInitMsg) ∧
    (∀ siteUrl feedpath, GscService.deleteSitemap (GscService.isAuthInitialized env)
      siteUrl feedpath = .error GscService.notInitMsg) := by
  have hinit : GscService.isAuthInitialized env = false := by
    unfold GscService.isAuthInitialized
    rcases h with h | h | h | h <;> rw [h] <;> simp [jsTruthy]
  simp [hinit, GscService.listSites, GscService.getSite, GscService.addSite,
    GscService.deleteSite, GscService.queryAnalytics, GscService.inspectUrl,
    GscService.listSitemaps, GscService.getSitemap, GscService.submitSitemap,
    GscService.deleteSitemap]

/-- C9 witness: with an empty environment nothing is initialized, and three
representative operations all fail with the initialization error. -/
theorem c9_ops_fail_uninitialized_witness :
    GscService.listSites (GscService.isAuthInitialized []) =
      .error GscService.notInitMsg ∧
    GscService.getSite (GscService.isAuthInitialized []) (some "sc-domain:example.com") =
      .error GscService.notInitMsg ∧
    GscService.queryAnalytics (GscService.isAuthInitialized [])
      (some "sc-domain:example.com") (some "2024-01-01") (some "2024-01-31")
      (some ["query"]) = .error GscService.notInitMsg := by
  have h := c9_ops_fail_uninitialized [] (Or.inl rfl)
  exact ⟨h.1, h.2.1 _, h.2.2.2.2.1 _ _ _ _⟩

/-- C10 counterexample: when the OAuth client was never initialized, a falsy
`siteUrl` makes `getSite` throw the initialization error, whose message does
not name the missing parameter as the claim requires. -/
theorem c10_param_claim_cex :
    GscService.getSite (GscService.isAuthInitialized []) (some "") =
      .error GscService.notInitMsg ∧
    GscService.notInitMsg ≠ "siteUrl parameter is required for getSite." :=
  ⟨rfl, by decide⟩

/-- C10 (amended): provided the OAuth client is initialized, every operation
with required string parameters validates them before any API request: a
falsy `siteUrl` makes `getSite`, `addSite`, `deleteSite` and `listSitemaps`
throw with a message naming the parameter; `getSitemap`, `submitSitemap` and
`deleteSitemap` additionally require `feedpath`; `queryAnalytics` requires
`siteUrl`, `startDate`, `endDate` and a non-empty dimensions array; in all
these cases the operation returns an error rather than a request, so no
network call is attempted. -/
theorem c10_param_validation :
    (∀ siteUrl, jsTruthy siteUrl = false →
      GscService.getSite true siteUrl =
        .error "siteUrl parameter is required for getSite." ∧
      GscService.addSite true siteUrl =
        .error "siteUrl parameter is required for addSite." ∧
      GscService.deleteSite true siteUrl =
        .error "siteUrl parameter is required for deleteSite." ∧
      GscService.listSitemaps true siteUrl =
        .error "siteUrl parameter is required for listSitemaps.") ∧
    (∀ siteUrl feedpath, jsTruthy siteUrl = false ∨ jsTruthy feedpath = false →
      GscService.getSitemap true siteUrl feedpath =
        .error "siteUrl and feedpath are required for getSitemap." ∧
      GscService.submitSitemap true siteUrl feedpath =
        .error "siteUrl and feedpath are required for submitSitemap." ∧
      GscService.deleteSitemap true siteUrl feedpath =
        .error "siteUrl and feedpath are required for deleteSitemap.") ∧
    (∀ siteUrl startDate endDate dimensions,
      jsTruthy siteUrl = false ∨ jsTruthy startDate = false ∨
        jsTruthy endDate = false ∨ GscService.dimsFalsyOrEmpty dimensions = true →
      GscService.queryAnalytics true siteUrl startDate endDate dimensions =
        .error "siteUrl, startDate, endDate, and dimensions are required for queryAnalytics.") := by
  refine ⟨?_, ?_, ?_⟩
  · intro s hs
    refine ⟨?_, ?_, ?_, ?_⟩ <;>
      simp [GscService.getSite, GscService.addSite, GscService.deleteSite,
        GscService.listSitemaps, hs]
  · intro s f hsf
    rcases hsf with h | h <;>
      refine ⟨?_, ?_, ?_⟩ <;>
        simp [GscService.getSitemap, GscService.submitSitemap,
          GscService.deleteSitemap, h]
  · intro s sd ed dims h
    rcases h with h | h | h | h <;> simp [GscService.queryAnalytics, h]

/-- C10 witness: missing `siteUrl`, missing `feedpath` and an empty
dimensions array each produce the parameter-naming error. -/
theorem c10_param_validation_witness :
    GscService.getSite true none =
      .error "siteUrl parameter is required for getSite." ∧
    GscService.getSitemap true (some "https://example.com/") none =
      .error "siteUrl and feedpath are required for getSitemap." ∧
    GscService.queryAnalytics true (some "https://example.com/") (some "2024-01-01")
      (some "2024-01-31") (some []) =
      .error "siteUrl, startDate, endDate, and dimensions are required for queryAnalytics." := by
  have h := c10_param_validation
  exact ⟨(h.1 none rfl).1, (h.2.1 (some "https://example.com/") none (Or.inr rfl)).1,
    h.2.2 (some "https://example.com/") (some "2024-01-01") (some "2024-01-31") (some [])
      (Or.inr (Or.inr (Or.inr rfl)))⟩

end McpConnector
